import Mathlib

/-!
Verification of the cqrs-actors event-sourcing core.

Shallow embedding of the Rust sources:
  - src/doc.rs      : the Customer example aggregate (commands, events, handlers)
  - src/test.rs     : the given/when/then behaviour-verification harness
  - src/cqrs.rs     : the CqrsFramework command pipeline (execute, execute_with_metadata)
  - src/registry.rs : the ActorRegistry identity cache (get_with_factory)

The EventStore / Query traits and the AggregateError / UserErrorPayload types live in
modules that are not part of the provided sources (store.rs, query.rs, error.rs); the
pipeline is therefore embedded generically over an abstract store and the error types
are modelled from the spec where their shape matters.
-/

namespace CqrsActors

/-! ## Error types

Modelled from the spec: error.rs is not among the provided sources.  The spec
distinguishes a business/user error (carries a human-readable message, from handle)
from a technical error (store/serialization/concurrency failure, introduced by the
pipeline or the store); tests/lib.rs matches AggregateError.UserError with a payload
whose field message is an Option String. -/

/-- Modelled from the spec: the user-error payload of error.rs, carrying an optional
human-readable message (tests/lib.rs reads payload.message.unwrap()). -/
structure UserErrorPayload where
  message : Option String
deriving DecidableEq, Repr

/-- Modelled from the spec: AggregateError of error.rs, a business/user error wrapping
the aggregate error payload, or a technical (store/serialization/concurrency) error. -/
inductive AggregateError (E : Type) where
  | UserError (payload : E)
  | TechnicalError (msg : String)
deriving DecidableEq, Repr

/-- Modelled from the spec: the From conversion used by doc.rs in
Err("...".into()), turning a message string into a user error with that message. -/
def strInto (s : String) : AggregateError UserErrorPayload :=
  AggregateError.UserError { message := some s }

/-! ## The Customer example aggregate (src/doc.rs) -/

/-- CustomerEvent of src/doc.rs. -/
inductive CustomerEvent where
  | NameAdded (changed_name : String)
  | EmailUpdated (new_email : String)
deriving DecidableEq, Repr

/-- CustomerCommand of src/doc.rs. -/
inductive CustomerCommand where
  | AddCustomerName (changed_name : String)
  | UpdateEmail (new_email : String)
deriving DecidableEq, Repr

/-- Customer of src/doc.rs. -/
structure Customer where
  customer_id : String
  name : String
  email : String
deriving DecidableEq, Repr

/-- Default for Customer (src/doc.rs lines 112-120): all fields empty. -/
def Customer.default : Customer :=
  { customer_id := "", name := "", email := "" }

/-- Handler of CustomerCommand for Customer (src/doc.rs lines 81-95). -/
def Customer.handle (self : Customer) (msg : CustomerCommand) :
    Except (AggregateError UserErrorPayload) (List CustomerEvent) :=
  match msg with
  | CustomerCommand.AddCustomerName changed_name =>
      if self.name ≠ "" then
        Except.error (strInto "a name has already been added for this customer")
      else
        Except.ok [CustomerEvent.NameAdded changed_name]
  | CustomerCommand.UpdateEmail _ => Except.ok []

/-- Handler of CustomerEvent for Customer (src/doc.rs lines 97-110): the apply step
that folds one committed event into the state. -/
def Customer.apply (self : Customer) (msg : CustomerEvent) : Customer :=
  match msg with
  | CustomerEvent.NameAdded changed_name => { self with name := changed_name }
  | CustomerEvent.EmailUpdated new_email => { self with email := new_email }

/-! ## The behaviour-verification harness (src/test.rs) -/

/-- AggregateTestExecutor.when for the Customer aggregate (src/test.rs lines 85-92):
fold the given events into a fresh default aggregate, then handle the command. -/
def customerWhen (events : List CustomerEvent) (command : CustomerCommand) :
    Except (AggregateError UserErrorPayload) (List CustomerEvent) :=
  (events.foldl Customer.apply Customer.default).handle command

/-! ## The command pipeline (src/cqrs.rs)

The pipeline is generic over the aggregate A, its command C, its event E, the error
type Err and the query-processor identity Q.  The store is the abstract EventStore
collaborator of src/cqrs.rs: load_aggregate and commit are fields, as is the
aggregate handler (the Handler trait instance used through
aggregate_context.aggregate().handle(command)).  Observable side effects, namely the
batches submitted to commit and the dispatch calls made to the query processors, are
returned explicitly as traces. -/

/-- AggregateContext: the reconstructed aggregate plus the sequence number it was
reconstructed up to. -/
structure AggregateContext (A : Type) where
  aggregate : A
  current_sequence : Nat

/-- EventEnvelope: the durable unit handed to query processors after a commit. -/
structure EventEnvelope (E : Type) where
  aggregate_id : String
  sequence : Nat
  payload : E
  metadata : List (String × String)
deriving DecidableEq, Repr

/-- CqrsFramework of src/cqrs.rs, bundled with the abstract store operations it
consumes (load_aggregate, commit) and the handler of the aggregate. -/
structure CqrsFramework (A C E Err Q : Type) where
  load_aggregate : String → AggregateContext A
  handle : A → C → Except Err (List E)
  commit : List E → AggregateContext A → List (String × String) →
      Except Err (List (EventEnvelope E))
  query_processors : List Q

/-- Result of one execute call: the returned value plus the trace of commit
invocations (each with the submitted batch) and the trace of dispatch invocations
(processor, aggregate id, delivered batch), in order. -/
structure ExecResult (E Err Q : Type) where
  result : Except Err Unit
  commitCalls : List (List E)
  dispatchCalls : List (Q × String × List (EventEnvelope E))

/-- CqrsFramework.execute_with_metadata (src/cqrs.rs lines 106-124): load the
aggregate, handle the command (propagating an error before any store write),
commit the resultant events (propagating an error before any dispatch), then
dispatch the committed batch once to every registered query processor in order. -/
def executeWithMetadata {A C E Err Q : Type} (fw : CqrsFramework A C E Err Q)
    (aggregate_id : String) (command : C) (metadata : List (String × String)) :
    ExecResult E Err Q :=
  let aggregate_context := fw.load_aggregate aggregate_id
  let aggregate := aggregate_context.aggregate
  match fw.handle aggregate command with
  | Except.error e => { result := Except.error e, commitCalls := [], dispatchCalls := [] }
  | Except.ok resultant_events =>
      match fw.commit resultant_events aggregate_context metadata with
      | Except.error e =>
          { result := Except.error e
            commitCalls := [resultant_events]
            dispatchCalls := [] }
      | Except.ok committed_events =>
          { result := Except.ok ()
            commitCalls := [resultant_events]
            dispatchCalls :=
              fw.query_processors.map (fun q => (q, aggregate_id, committed_events)) }

/-- CqrsFramework.execute (src/cqrs.rs lines 75-82): delegate to
execute_with_metadata with an empty metadata map. -/
def execute {A C E Err Q : Type} (fw : CqrsFramework A C E Err Q)
    (aggregate_id : String) (command : C) : ExecResult E Err Q :=
  executeWithMetadata fw aggregate_id command []

/-! ## The identity registry (src/registry.rs)

The registry maps an aggregate id to a boxed actor address.  The dynamic typing of
Box dyn Any together with downcast_ref to Addr A is embedded by tagging each stored
address with the name of its concrete actor type: the downcast succeeds exactly when
the stored tag equals the requested one.  Liveness (Addr.connected in actix) is a
field of the address.  The mutex is embedded by a poisoned flag on the registry:
lock acquisition fails exactly when the flag is set.  Because the Rust factory has
type FnOnce(id) to Addr A for the requested A, the embedded factory produces the
data of the new address and the new address carries the requested type tag. -/

/-- RegistryError of src/registry.rs lines 10-17. -/
inductive RegistryError where
  | GenericError (msg : String)
  | LockError
  | InvalidRegistryEntry (id : String)
deriving DecidableEq, Repr

/-- Addr, the handle to a running actor: its concrete actor type tag (carried by the
Box dyn Any for downcasting), an instance identity, and its liveness. -/
structure Addr where
  actorType : String
  instanceId : Nat
  connected : Bool
deriving DecidableEq, Repr

/-- Lookup in the id-to-address map (HashMap.get on the registry map). -/
def mapLookup : List (String × Addr) → String → Option Addr
  | [], _ => none
  | (k, v) :: rest, id => if k = id then some v else mapLookup rest id

/-- Insert into the id-to-address map (HashMap.insert: replaces any entry under the
same key). -/
def mapInsert : List (String × Addr) → String → Addr → List (String × Addr)
  | [], id, a => [(id, a)]
  | (k, v) :: rest, id, a =>
      if k = id then (id, a) :: rest else (k, v) :: mapInsert rest id a

/-- ActorRegistry of src/registry.rs lines 20-23: the mutex-protected id-to-handle
map; poisoned records whether the mutex lock fails. -/
structure ActorRegistry where
  poisoned : Bool
  map : List (String × Addr)
deriving DecidableEq, Repr

/-- ActorRegistry.get_with_factory (src/registry.rs lines 29-50).  Returns the
result, the registry state after the call, and whether the factory was invoked.
The requested actor type A appears as the tag ty; factory gives the instance
identity and liveness of the newly started actor, whose address is tagged ty. -/
def get_with_factory (reg : ActorRegistry) (ty : String) (id : String)
    (factory : String → Nat × Bool) :
    Except RegistryError Addr × ActorRegistry × Bool :=
  if reg.poisoned then
    (Except.error RegistryError.LockError, reg, false)
  else
    match mapLookup reg.map id with
    | some stored =>
        if stored.actorType = ty then
          if stored.connected then
            (Except.ok stored, reg, false)
          else
            let addr : Addr := { actorType := ty
                                 instanceId := (factory id).1
                                 connected := (factory id).2 }
            (Except.ok addr, { reg with map := mapInsert reg.map id addr }, true)
        else
          (Except.error (RegistryError.InvalidRegistryEntry id), reg, false)
    | none =>
        let addr : Addr := { actorType := ty
                             instanceId := (factory id).1
                             connected := (factory id).2 }
        (Except.ok addr, { reg with map := mapInsert reg.map id addr }, true)

/-! ## Concrete instantiations used to witness the pipeline theorems -/

/-- A concrete framework over the Customer aggregate: empty history on load, a
commit that wraps every submitted event in an envelope, and two query processors. -/
def demoFw : CqrsFramework Customer CustomerCommand CustomerEvent
    (AggregateError UserErrorPayload) Nat :=
  { load_aggregate := fun _ => { aggregate := Customer.default, current_sequence := 0 }
    handle := Customer.handle
    commit := fun events _ metadata =>
      Except.ok (events.map fun e =>
        { aggregate_id := "demo", sequence := 1, payload := e, metadata := metadata })
    query_processors := [0, 1] }

/-- The demo framework whose load yields a customer that already has a name, so
that handling AddCustomerName fails with the business error. -/
def demoFwNamed : CqrsFramework Customer CustomerCommand CustomerEvent
    (AggregateError UserErrorPayload) Nat :=
  { demoFw with
      load_aggregate := fun _ =>
        { aggregate := { Customer.default with name := "John Doe" }
          current_sequence := 1 } }

/-- The demo framework whose commit always fails with a technical concurrency
error. -/
def demoFwConflict : CqrsFramework Customer CustomerCommand CustomerEvent
    (AggregateError UserErrorPayload) Nat :=
  { demoFw with
      commit := fun _ _ _ =>
        Except.error (AggregateError.TechnicalError "concurrency") }

end CqrsActors

namespace CqrsActors

/-! ## Helper lemmas -/

/-- Looking up a key right after inserting it yields the inserted address. -/
theorem mapLookup_mapInsert (m : List (String × Addr)) (id : String) (a : Addr) :
    mapLookup (mapInsert m id a) id = some a := by
  induction m with
  | nil => simp [mapInsert, mapLookup]
  | cons kv rest ih =>
      obtain ⟨k, v⟩ := kv
      by_cases hk : k = id
      · simp [mapInsert, mapLookup, hk]
      · simp [mapInsert, mapLookup, hk, ih]

/-! ## Claim theorems -/

/-- C1: for every framework, aggregate id, command and metadata map, if the command
handler returns an error on the loaded state, execute_with_metadata returns that
error unchanged, the commit of the store is never invoked, and no query processor
dispatch is called. -/
theorem c1_handle_error_aborts {A C E Err Q : Type} (fw : CqrsFramework A C E Err Q)
    (aggregate_id : String) (command : C) (metadata : List (String × String)) (e : Err)
    (h : fw.handle (fw.load_aggregate aggregate_id).aggregate command = Except.error e) :
    executeWithMetadata fw aggregate_id command metadata =
      { result := Except.error e, commitCalls := [], dispatchCalls := [] } := by
  simp [executeWithMetadata, h]

/-- C1 witness: a customer that already has a name rejects AddCustomerName; the
pipeline returns the business error with no commit and no dispatch. -/
theorem c1_handle_error_aborts_witness :
    executeWithMetadata demoFwNamed "id-1" (CustomerCommand.AddCustomerName "Jane")
        [("time", "t0")] =
      { result := Except.error
          (strInto "a name has already been added for this customer")
        commitCalls := [], dispatchCalls := [] } :=
  c1_handle_error_aborts demoFwNamed "id-1" (CustomerCommand.AddCustomerName "Jane")
    [("time", "t0")] (strInto "a name has already been added for this customer") rfl

/-- C2: for every framework, aggregate id, command and metadata map, if the handler
succeeds but the commit of the store returns an error, execute_with_metadata
returns that error to the caller, commit was invoked exactly once with the produced
events, and no query processor dispatch is called. -/
theorem c2_commit_error_no_dispatch {A C E Err Q : Type}
    (fw : CqrsFramework A C E Err Q) (aggregate_id : String) (command : C)
    (metadata : List (String × String)) (events : List E) (e : Err)
    (hh : fw.handle (fw.load_aggregate aggregate_id).aggregate command =
      Except.ok events)
    (hc : fw.commit events (fw.load_aggregate aggregate_id) metadata =
      Except.error e) :
    executeWithMetadata fw aggregate_id command metadata =
      { result := Except.error e, commitCalls := [events], dispatchCalls := [] } := by
  simp [executeWithMetadata, hh, hc]

/-- C2 witness: the conflicting store rejects the commit of the NameAdded event and
the pipeline surfaces the technical error with no dispatch. -/
theorem c2_commit_error_no_dispatch_witness :
    executeWithMetadata demoFwConflict "id-2"
        (CustomerCommand.AddCustomerName "John Doe") [] =
      { result := Except.error (AggregateError.TechnicalError "concurrency")
        commitCalls := [[CustomerEvent.NameAdded "John Doe"]]
        dispatchCalls := [] } :=
  c2_commit_error_no_dispatch demoFwConflict "id-2"
    (CustomerCommand.AddCustomerName "John Doe") []
    [CustomerEvent.NameAdded "John Doe"]
    (AggregateError.TechnicalError "concurrency") rfl rfl

/-- C3: for every framework, aggregate id, command and metadata map, if handling and
commit both succeed, execute_with_metadata dispatches exactly once to every
registered query processor, in registration order, passing the aggregate id and the
full committed batch in one call, and returns success. -/
theorem c3_success_dispatches_batch {A C E Err Q : Type}
    (fw : CqrsFramework A C E Err Q) (aggregate_id : String) (command : C)
    (metadata : List (String × String)) (events : List E)
    (committed : List (EventEnvelope E))
    (hh : fw.handle (fw.load_aggregate aggregate_id).aggregate command =
      Except.ok events)
    (hc : fw.commit events (fw.load_aggregate aggregate_id) metadata =
      Except.ok committed) :
    executeWithMetadata fw aggregate_id command metadata =
      { result := Except.ok ()
        commitCalls := [events]
        dispatchCalls :=
          fw.query_processors.map (fun q => (q, aggregate_id, committed)) } := by
  simp [executeWithMetadata, hh, hc]

/-- C3 witness: on the demo framework the committed NameAdded envelope is delivered
once to each of the two processors, tagged with the aggregate id. -/
theorem c3_success_dispatches_batch_witness :
    executeWithMetadata demoFw "id-3" (CustomerCommand.AddCustomerName "John Doe")
        [] =
      { result := Except.ok ()
        commitCalls := [[CustomerEvent.NameAdded "John Doe"]]
        dispatchCalls :=
          [(0, "id-3", [{ aggregate_id := "demo", sequence := 1
                          payload := CustomerEvent.NameAdded "John Doe"
                          metadata := [] }]),
           (1, "id-3", [{ aggregate_id := "demo", sequence := 1
                          payload := CustomerEvent.NameAdded "John Doe"
                          metadata := [] }])] } :=
  c3_success_dispatches_batch demoFw "id-3" (CustomerCommand.AddCustomerName "John Doe")
    [] [CustomerEvent.NameAdded "John Doe"]
    [{ aggregate_id := "demo", sequence := 1
       payload := CustomerEvent.NameAdded "John Doe", metadata := [] }]
    rfl rfl

/-- C4: an entry whose handle has the requested actor type and is still connected is
returned as-is with the factory not invoked; moreover, starting from a registry with
no entry for the id, two sequential calls with a handle that stays connected invoke
the factory exactly once (first call true, second call false) and the second call
returns the handle stored by the first. -/
theorem c4_live_entry_skips_factory :
    (∀ (reg : ActorRegistry) (ty id : String) (factory : String → Nat × Bool)
        (stored : Addr),
        reg.poisoned = false →
        mapLookup reg.map id = some stored →
        stored.actorType = ty →
        stored.connected = true →
        get_with_factory reg ty id factory = (Except.ok stored, reg, false)) ∧
    (∀ (reg : ActorRegistry) (ty id : String) (factory : String → Nat × Bool),
        reg.poisoned = false →
        mapLookup reg.map id = none →
        (factory id).2 = true →
        (get_with_factory reg ty id factory).2.2 = true ∧
        get_with_factory (get_with_factory reg ty id factory).2.1 ty id factory =
          (Except.ok { actorType := ty, instanceId := (factory id).1
                       connected := (factory id).2 },
           (get_with_factory reg ty id factory).2.1, false)) := by
  constructor
  · intro reg ty id factory stored hp hl ht hc
    simp [get_with_factory, hp, hl, ht, hc]
  · intro reg ty id factory hp hl halive
    constructor
    · simp [get_with_factory, hp, hl]
    · simp [get_with_factory, hp, hl, mapLookup_mapInsert, halive]

/-- C4 witness: a live matching entry for x is returned without the factory, and on
an empty registry two sequential calls create once and then reuse the handle. -/
theorem c4_live_entry_skips_factory_witness :
    (get_with_factory
        { poisoned := false
          map := [("x", { actorType := "A", instanceId := 7, connected := true })] }
        "A" "x" (fun _ => (9, true)) =
      (Except.ok { actorType := "A", instanceId := 7, connected := true },
       { poisoned := false
         map := [("x", { actorType := "A", instanceId := 7, connected := true })] },
       false)) ∧
    ((get_with_factory { poisoned := false, map := [] } "A" "x"
        (fun _ => (9, true))).2.2 = true ∧
      get_with_factory
          (get_with_factory { poisoned := false, map := [] } "A" "x"
            (fun _ => (9, true))).2.1 "A" "x" (fun _ => (9, true)) =
        (Except.ok { actorType := "A", instanceId := 9, connected := true },
         (get_with_factory { poisoned := false, map := [] } "A" "x"
           (fun _ => (9, true))).2.1, false)) :=
  ⟨c4_live_entry_skips_factory.1
      { poisoned := false
        map := [("x", { actorType := "A", instanceId := 7, connected := true })] }
      "A" "x" (fun _ => (9, true))
      { actorType := "A", instanceId := 7, connected := true } rfl rfl rfl rfl,
   c4_live_entry_skips_factory.2 { poisoned := false, map := [] } "A" "x"
      (fun _ => (9, true)) rfl rfl rfl⟩

/-- C5 counterexample: the registry holds a handle for x that is not alive, yet
get_with_factory does not invoke the factory and returns the invalid-registry-entry
error, because the stored handle was created for actor type B while the caller
requests type A: the downcast check precedes the liveness check. -/
theorem c5_counterexample_dead_mistyped_entry :
    mapLookup
        (ActorRegistry.mk false
          [("x", { actorType := "B", instanceId := 3, connected := false })]).map
        "x" =
      some { actorType := "B", instanceId := 3, connected := false } ∧
    get_with_factory
        (ActorRegistry.mk false
          [("x", { actorType := "B", instanceId := 3, connected := false })])
        "A" "x" (fun _ => (4, true)) =
      (Except.error (RegistryError.InvalidRegistryEntry "x"),
       ActorRegistry.mk false
         [("x", { actorType := "B", instanceId := 3, connected := false })],
       false) := by
  exact ⟨rfl, rfl⟩

/-- C5 amended: if the registry holds no entry for the id, or the existing handle
has the requested actor type and is no longer alive, get_with_factory invokes the
factory, stores the newly created handle under the id (overwriting any dead entry),
and returns the new handle. -/
theorem c5_dead_or_missing_entry_replaced
    (reg : ActorRegistry) (ty id : String) (factory : String → Nat × Bool)
    (hp : reg.poisoned = false)
    (h : mapLookup reg.map id = none ∨
      ∃ stored, mapLookup reg.map id = some stored ∧ stored.actorType = ty ∧
        stored.connected = false) :
    get_with_factory reg ty id factory =
      (Except.ok ⟨ty, (factory id).1, (factory id).2⟩,
       { reg with map := mapInsert reg.map id ⟨ty, (factory id).1, (factory id).2⟩ },
       true) := by
  rcases h with hl | ⟨stored, hl, ht, hc⟩
  · simp [get_with_factory, hp, hl]
  · simp [get_with_factory, hp, hl, ht, hc]

/-- C5 witness: a dead entry of the requested type for x is replaced by a freshly
created handle and the factory is invoked. -/
theorem c5_dead_or_missing_entry_replaced_witness :
    get_with_factory
        { poisoned := false
          map := [("x", { actorType := "A", instanceId := 3, connected := false })] }
        "A" "x" (fun _ => (4, true)) =
      (Except.ok { actorType := "A", instanceId := 4, connected := true },
       { poisoned := false
         map := [("x", { actorType := "A", instanceId := 4, connected := true })] },
       true) :=
  c5_dead_or_missing_entry_replaced
    { poisoned := false
      map := [("x", { actorType := "A", instanceId := 3, connected := false })] }
    "A" "x" (fun _ => (4, true)) rfl
    (Or.inr ⟨{ actorType := "A", instanceId := 3, connected := false }, rfl, rfl, rfl⟩)

/-- C6: an entry whose stored handle was created for a different actor type than the
caller requests makes get_with_factory fail with the invalid-registry-entry error
naming the id, leaving the registry unchanged and the factory not invoked; no
mistyped handle is ever returned. -/
theorem c6_type_mismatch_is_error
    (reg : ActorRegistry) (ty id : String) (factory : String → Nat × Bool)
    (stored : Addr)
    (hp : reg.poisoned = false)
    (hl : mapLookup reg.map id = some stored)
    (ht : stored.actorType ≠ ty) :
    get_with_factory reg ty id factory =
      (Except.error (RegistryError.InvalidRegistryEntry id), reg, false) := by
  simp [get_with_factory, hp, hl, ht]

/-- C6 witness: requesting type A where a type-B handle is stored for x yields the
invalid-registry-entry error for x. -/
theorem c6_type_mismatch_is_error_witness :
    get_with_factory
        { poisoned := false
          map := [("x", { actorType := "B", instanceId := 5, connected := true })] }
        "A" "x" (fun _ => (6, true)) =
      (Except.error (RegistryError.InvalidRegistryEntry "x"),
       { poisoned := false
         map := [("x", { actorType := "B", instanceId := 5, connected := true })] },
       false) :=
  c6_type_mismatch_is_error
    { poisoned := false
      map := [("x", { actorType := "B", instanceId := 5, connected := true })] }
    "A" "x" (fun _ => (6, true))
    { actorType := "B", instanceId := 5, connected := true } rfl rfl (by decide)

/-- C7: from the default Customer with no previous events, AddCustomerName with
name John Doe succeeds and produces exactly the single NameAdded event. -/
theorem c7_add_name_first_time :
    customerWhen [] (CustomerCommand.AddCustomerName "John Doe") =
      Except.ok [CustomerEvent.NameAdded "John Doe"] := rfl

/-- C8: after applying NameAdded John Doe to the default Customer, handling
AddCustomerName John Doe again yields the user error with exactly the message that
a name has already been added for this customer, and no events. -/
theorem c8_add_name_again_fails :
    customerWhen [CustomerEvent.NameAdded "John Doe"]
        (CustomerCommand.AddCustomerName "John Doe") =
      Except.error (AggregateError.UserError
        { message := some "a name has already been added for this customer" }) := rfl

/-- C9: folding a Customer event history with apply from the default state is
deterministic: two runs over the same history yield identical resulting state. -/
theorem c9_fold_deterministic (h1 h2 : List CustomerEvent) (he : h1 = h2) :
    h1.foldl Customer.apply Customer.default =
      h2.foldl Customer.apply Customer.default := by
  rw [he]

/-- C9 witness: the two-event history folded twice yields the same state. -/
theorem c9_fold_deterministic_witness :
    [CustomerEvent.NameAdded "John Doe",
     CustomerEvent.EmailUpdated "jd@mail"].foldl Customer.apply Customer.default =
      [CustomerEvent.NameAdded "John Doe",
       CustomerEvent.EmailUpdated "jd@mail"].foldl Customer.apply Customer.default :=
  c9_fold_deterministic
    [CustomerEvent.NameAdded "John Doe", CustomerEvent.EmailUpdated "jd@mail"]
    [CustomerEvent.NameAdded "John Doe", CustomerEvent.EmailUpdated "jd@mail"] rfl

/-- C10: for every framework, aggregate id and command, execute equals
execute_with_metadata applied to the empty metadata map: same result, same commit
trace, same dispatch trace. -/
theorem c10_execute_is_empty_metadata {A C E Err Q : Type}
    (fw : CqrsFramework A C E Err Q) (aggregate_id : String) (command : C) :
    execute fw aggregate_id command =
      executeWithMetadata fw aggregate_id command [] := rfl

end CqrsActors
